import Mathlib

/-!
Shallow embedding of the interruptible-worker machinery, the events manager,
the synthesizer cutoff estimators, and the telephony jitter compensation of
the vocode streaming library, with proofs of the specification claims.
-/

/-- Outcome of awaiting the processing task spawned for one dequeued event:
the task finishes normally, finishes by raising a non-cancellation exception,
or is cancelled (the await raises CancelledError). -/
inductive TaskOutcome
  | normal
  | exn
  | cancelled
  deriving DecidableEq

/-- Model of `InterruptibleEvent` (utils/worker.py): a payload, the
`is_interruptible` flag, and the state of the shared `threading.Event`
cancellation signal (`interruption_event`), modelled as a Bool that is true
once the signal has been set. -/
structure InterruptibleEvent (Payload : Type) where
  payload : Payload
  is_interruptible : Bool := true
  interruption_event : Bool := false
  deriving DecidableEq

/-- Model of `InterruptibleEvent.interrupt`: returns the boolean result
together with the updated event (the signal is set only when the event is
still interruptible). -/
def InterruptibleEvent.interrupt {P : Type} (e : InterruptibleEvent P) :
    Bool × InterruptibleEvent P :=
  if !e.is_interruptible then (false, e)
  else (true, { e with interruption_event := true })

/-- Model of `InterruptibleEvent.is_interrupted`. -/
def InterruptibleEvent.is_interrupted {P : Type} (e : InterruptibleEvent P) : Bool :=
  e.is_interruptible && e.interruption_event

/-- Trace record of one iteration of `InterruptibleWorker._run_loop`:
`dropped` means the dequeued event was already interrupted and was skipped;
`processed e` means a task was spawned and finished normally or with a
non-cancellation exception, `e` being the event's state after the iteration;
`cancelledExit e` means awaiting the task raised CancelledError and the loop
returned, `e` being the event's state at exit. -/
inductive LoopRecord (P : Type)
  | dropped (e : InterruptibleEvent P)
  | processed (e : InterruptibleEvent P)
  | cancelledExit (e : InterruptibleEvent P)
  deriving DecidableEq

/-- Model of `InterruptibleWorker._run_loop` (worker.py lines 141-156),
consuming the input queue one (event, task outcome) pair per iteration, the
outcome saying how the spawned `process` task finishes. An already
interrupted event is skipped; a CancelledError returns from the loop at once
(before the `is_interruptible = False` assignment of line 155 is reached);
otherwise the event is marked non-interruptible and the loop continues. -/
def InterruptibleWorker.run_loop {P : Type} :
    List (InterruptibleEvent P × TaskOutcome) → List (LoopRecord P)
  | [] => []
  | (item, outcome) :: rest =>
    if item.is_interrupted then
      LoopRecord.dropped item :: InterruptibleWorker.run_loop rest
    else if outcome = TaskOutcome.cancelled then
      [LoopRecord.cancelledExit item]
    else
      LoopRecord.processed { item with is_interruptible := false } ::
        InterruptibleWorker.run_loop rest

/-- Model of an asyncio task's state as observed by `cancel_current_task`:
whether it is done, and whether cancellation has been requested on it. -/
structure TaskState where
  done : Bool
  cancel_requested : Bool := false
  deriving DecidableEq

/-- Model of the mutable attributes of `InterruptibleWorker` read by
`cancel_current_task`: `current_task` and `interruptible_event`. In
`_run_loop` the event attribute is always assigned before `current_task`, so
a state with a task but no event is unreachable. -/
structure InterruptibleWorker (P : Type) where
  current_task : Option TaskState
  interruptible_event : Option (InterruptibleEvent P)
  deriving DecidableEq

/-- Model of `InterruptibleWorker.cancel_current_task` (worker.py lines
165-178): if the current task exists, is not done, and the active event is
still interruptible, request the task's cancellation (asyncio `Task.cancel`
on a not-done task schedules cancellation and returns True) and return true;
in every other state return false and leave the worker unchanged. -/
def InterruptibleWorker.cancel_current_task {P : Type}
    (w : InterruptibleWorker P) : Bool × InterruptibleWorker P :=
  match w.current_task, w.interruptible_event with
  | some t, some e =>
    if !t.done && e.is_interruptible then
      (true, { w with current_task := some { t with cancel_requested := true } })
    else (false, w)
  | _, _ => (false, w)

/-- Model of `EventType` (models/events.py). -/
inductive EventType
  | TRANSCRIPT
  | PHONE_CALL_CONNECTED
  deriving DecidableEq

/-- Model of `Event` (models/events.py): a conversation id plus the type tag
registered by `TypedModel`; additional payload fields of the concrete event
classes are irrelevant to the claims. -/
structure Event where
  conversation_id : String
  type : EventType
  deriving DecidableEq

/-- Model of `EventsManager` state (utils/events_manager.py): the pending
queue (oldest first), the subscription set, the `active` flag, and — as an
observation trace — the list of events passed to `handle_event` so far. -/
structure EventsManager where
  queue : List Event
  subscriptions : List EventType
  active : Bool
  handled : List Event
  deriving DecidableEq

/-- Model of `EventsManager.__init__`. -/
def EventsManager.init (subscriptions : List EventType) : EventsManager :=
  { queue := [], subscriptions := subscriptions, active := false, handled := [] }

/-- Model of `EventsManager.publish_event`: enqueue exactly when the event's
type is subscribed. The `active` flag is not consulted. -/
def EventsManager.publish_event (m : EventsManager) (event : Event) :
    EventsManager :=
  if event.type ∈ m.subscriptions then { m with queue := m.queue ++ [event] }
  else m

/-- Model of `EventsManager.end`: set `active := false`, then synchronously
drain the queue with `get_nowait`, handling each drained event in FIFO order
until the queue is empty. -/
def EventsManager.end' (m : EventsManager) : EventsManager :=
  { m with active := false, queue := [], handled := m.handled ++ m.queue }

/-- Python float truncation `int(x)` toward zero, on exact rationals (the
truncation of a negative rational is the negated floor of its negation). -/
def pyInt (q : ℚ) : ℤ := if 0 ≤ q then ⌊q⌋ else -⌊-q⌋

/-- Python slice `l[:k]` with a possibly negative stop index `k`: a negative
`k` counts from the end, clipped at zero. -/
def pyTake {α : Type} (l : List α) (k : ℤ) : List α :=
  if 0 ≤ k then l.take k.toNat else l.take (l.length - (-k).toNat)

/-- Python string slice `s[:k]`. -/
def pyStrTake (s : String) (k : ℤ) : String := String.mk (pyTake s.data k)

/-- Python exception raised by the embedded synthesizer functions. -/
inductive PyError
  | zeroDivision
  deriving DecidableEq

/-- Model of `BaseMessage`: the `text` field is the only one the cutoff
estimators read (models/message.py is a plain data model). -/
structure BaseMessage where
  text : String
  deriving DecidableEq

/-- Model of the single field of `SynthesizerConfig` read by the cutoff
estimators. -/
structure SynthesizerConfig where
  sampling_rate : ℕ
  deriving DecidableEq

/-- Splits a character list into its maximal nonempty runs of non-space
characters (auxiliary for the tokenizer model); the second argument
accumulates the current run in reverse. -/
def splitWordsAux : List Char → List Char → List String
  | [], [] => []
  | [], acc => [String.mk acc.reverse]
  | c :: cs, acc =>
    if c = ' ' then
      match acc with
      | [] => splitWordsAux cs []
      | _ => String.mk acc.reverse :: splitWordsAux cs []
    else splitWordsAux cs (c :: acc)

/-- Modelled from the spec: `word_tokenize` comes from the external nltk
package and is not code of this repository; the spec says only "tokenize the
message". On whitespace-separated words with no attached punctuation — all
the inputs the claims mention — the library returns exactly the words, so it
is modelled as splitting on spaces. -/
def word_tokenize (s : String) : List String := splitWordsAux s.data []

/-- Whether a token is closing punctuation, before which the detokenizer
inserts no space. -/
def isClosingPunctuation (t : String) : Bool :=
  t = "." || t = "," || t = "!" || t = "?" || t = ";" || t = ":" || t = ")"

/-- Modelled from the spec: the external nltk `TreebankWordDetokenizer` is
not code of this repository; the spec specifies a punctuation-aware re-join
that inserts no space before closing punctuation. -/
def detokenize : List String → String
  | [] => ""
  | t :: ts =>
    ts.foldl (fun acc tok =>
      if isClosingPunctuation tok then acc ++ tok else acc ++ " " ++ tok) t

/-- Model of `BaseSynthesizer.get_message_cutoff_from_total_response_length`
(base_synthesizer.py lines 175-187), with Python's float arithmetic modelled
exactly on rationals and ZeroDivisionError made explicit: the estimated
output duration is computed first (raising if the sampling rate is zero), an
empty message returns itself, and otherwise the message is sliced at
`int(seconds / estimated_output_seconds_per_char)` (raising if the
per-character duration is zero). -/
def get_message_cutoff_from_total_response_length
    (synthesizer_config : SynthesizerConfig) (message : BaseMessage)
    (seconds : ℚ) (size_of_output : ℕ) : Except PyError String :=
  if synthesizer_config.sampling_rate = 0 then Except.error PyError.zeroDivision
  else
    let estimated_output_seconds : ℚ :=
      (size_of_output : ℚ) / (synthesizer_config.sampling_rate : ℚ)
    if message.text = "" then Except.ok message.text
    else
      let estimated_output_seconds_per_char : ℚ :=
        estimated_output_seconds / (message.text.length : ℚ)
      if estimated_output_seconds_per_char = 0 then
        Except.error PyError.zeroDivision
      else
        Except.ok
          (pyStrTake message.text
            (pyInt (seconds / estimated_output_seconds_per_char)))

/-- Model of `BaseSynthesizer.get_message_cutoff_from_voice_speed`
(base_synthesizer.py lines 189-196): floor the number of words spoken in
`seconds` at the given rate, take that many leading tokens (Python slice
semantics), and detokenize them. -/
def get_message_cutoff_from_voice_speed
    (message : BaseMessage) (seconds : ℚ) (words_per_minute : ℕ) : String :=
  let words_per_second : ℚ := (words_per_minute : ℚ) / 60
  let estimated_words_spoken : ℤ := ⌊words_per_second * seconds⌋
  let tokens := word_tokenize message.text
  detokenize (pyTake tokens estimated_words_spoken)

/-- Model of `PhoneCallAction` (twilio_call.py). -/
inductive PhoneCallAction
  | CLOSE_WEBSOCKET
  deriving DecidableEq

/-- Inbound Twilio websocket message after JSON parsing and base64 decoding:
a media message carries the decoded payload bytes and the integer capture
timestamp in milliseconds; `stop` and `other` are the remaining `event`
values; `nullMessage` models `message is None`. -/
inductive TwilioWsMessage
  | media (payload : List ℕ) (timestamp : ℤ)
  | stop
  | other
  | nullMessage
  deriving DecidableEq

/-- State of a `TwilioCall` relevant to media handling:
`latest_media_timestamp` (initialised to 0) and the trace of byte buffers
passed to `receive_audio`, oldest first. -/
structure TwilioCallState where
  latest_media_timestamp : ℤ
  received_audio : List (List ℕ)
  deriving DecidableEq

/-- Model of `TwilioCall.handle_ws_message` (twilio_call.py lines 133-154):
on a media message, when the stored timestamp plus the 20 ms tolerance is
strictly below the new timestamp, first forward `8 * gap` bytes of 0xff
mulaw silence; then update the stored timestamp and forward the chunk. A
stop or null message requests closing the websocket. -/
def TwilioCall.handle_ws_message (st : TwilioCallState) :
    TwilioWsMessage → TwilioCallState × Option PhoneCallAction
  | TwilioWsMessage.nullMessage => (st, some PhoneCallAction.CLOSE_WEBSOCKET)
  | TwilioWsMessage.media payload timestamp =>
    let st1 :=
      if st.latest_media_timestamp + 20 < timestamp then
        { st with
            received_audio := st.received_audio ++
              [List.replicate
                (8 * (timestamp - (st.latest_media_timestamp + 20))).toNat
                0xff] }
      else st
    ({ latest_media_timestamp := timestamp,
       received_audio := st1.received_audio ++ [payload] }, none)
  | TwilioWsMessage.stop => (st, some PhoneCallAction.CLOSE_WEBSOCKET)
  | TwilioWsMessage.other => (st, none)

/-- Runs `handle_ws_message` over a list of inbound messages, stopping when a
message yields `CLOSE_WEBSOCKET`, as the receive loop of
`attach_ws_and_start` does. -/
def TwilioCall.handle_ws_messages (st : TwilioCallState) :
    List TwilioWsMessage → TwilioCallState
  | [] => st
  | m :: ms =>
    match TwilioCall.handle_ws_message st m with
    | (st1, none) => TwilioCall.handle_ws_messages st1 ms
    | (st1, some _) => st1

/-- Auxiliary: a Python slice `l[:k]` keeps all of `l` once `k` is at least
its length. -/
theorem pyTake_all {α : Type} (l : List α) (k : ℤ) (h : (l.length : ℤ) ≤ k) :
    pyTake l k = l := by
  have hk : 0 ≤ k := le_trans (by positivity) h
  rw [pyTake, if_pos hk]
  exact List.take_of_length_le (by omega)

/-- Auxiliary: a Python slice of the empty list is empty. -/
theorem pyTake_nil {α : Type} (k : ℤ) : pyTake ([] : List α) k = [] := by
  rw [pyTake]; split <;> simp

/-- Claim C2: interrupting an `InterruptibleEvent` whose `is_interruptible`
flag is false returns false and leaves the event — in particular its
cancellation signal — unchanged; being a total function, it raises
nothing. -/
theorem C2_interrupt_after_completion_is_noop {P : Type}
    (e : InterruptibleEvent P) (h : e.is_interruptible = false) :
    e.interrupt = (false, e) := by
  simp [InterruptibleEvent.interrupt, h]

/-- Witness for C2 at a concrete completed event. -/
theorem C2_interrupt_after_completion_is_noop_witness :
    (InterruptibleEvent.mk () false true).interrupt =
      (false, InterruptibleEvent.mk () false true) :=
  C2_interrupt_after_completion_is_noop (InterruptibleEvent.mk () false true) rfl

/-- Claim C1, counterexample: an event whose task finishes by cancellation is
not marked non-interruptible — the run loop returns before the
`is_interruptible = False` assignment — and a late interrupt call still acts
on it (returns true and sets the signal). -/
theorem C1_counterexample :
    InterruptibleWorker.run_loop
        [((InterruptibleEvent.mk () true false), TaskOutcome.cancelled)] =
      [LoopRecord.cancelledExit (InterruptibleEvent.mk () true false)] ∧
    (InterruptibleEvent.mk () true false).interrupt =
      (true, InterruptibleEvent.mk () true true) := by
  exact ⟨rfl, rfl⟩

/-- Claim C1, amended: when the processing task of a dequeued event finishes
normally or with a non-cancellation exception, the run loop marks the event
non-interruptible before dequeuing any further event (every `processed`
record of the loop trace carries `is_interruptible = false`); when the task
finishes by cancellation the loop returns at once and dequeues nothing
further, but leaves that event's flag unchanged. -/
theorem C1_finished_events_marked_non_interruptible {P : Type}
    (l : List (InterruptibleEvent P × TaskOutcome)) (e : InterruptibleEvent P)
    (h : LoopRecord.processed e ∈ InterruptibleWorker.run_loop l) :
    e.is_interruptible = false := by
  induction l with
  | nil => simp [InterruptibleWorker.run_loop] at h
  | cons hd tl ih =>
    obtain ⟨item, outcome⟩ := hd
    rw [InterruptibleWorker.run_loop] at h
    by_cases hi : item.is_interrupted
    · rw [if_pos hi] at h
      rcases List.mem_cons.mp h with h1 | h2
      · exact absurd h1 (by simp)
      · exact ih h2
    · rw [if_neg hi] at h
      by_cases hc : outcome = TaskOutcome.cancelled
      · rw [if_pos hc] at h
        simp at h
      · rw [if_neg hc] at h
        rcases List.mem_cons.mp h with h1 | h2
        · injection h1 with h1
          rw [h1]
        · exact ih h2

/-- Witness for C1 (amended) on a one-event queue whose task finishes
normally. -/
theorem C1_finished_events_marked_non_interruptible_witness :
    (InterruptibleEvent.mk () false false).is_interruptible = false :=
  C1_finished_events_marked_non_interruptible
    [((InterruptibleEvent.mk () true false), TaskOutcome.normal)]
    (InterruptibleEvent.mk () false false) (by decide)

/-- Claim C9: if the awaited task of a dequeued, non-stale event finishes by
cancellation, the run loop exits: its trace is independent of everything
queued after that event, so no later event is ever dequeued or processed by
this worker instance. -/
theorem C9_run_loop_exits_after_cancellation {P : Type}
    (l1 : List (InterruptibleEvent P × TaskOutcome)) (e : InterruptibleEvent P)
    (l2 : List (InterruptibleEvent P × TaskOutcome))
    (h : e.is_interrupted = false) :
    InterruptibleWorker.run_loop (l1 ++ (e, TaskOutcome.cancelled) :: l2) =
      InterruptibleWorker.run_loop (l1 ++ [(e, TaskOutcome.cancelled)]) := by
  induction l1 with
  | nil => simp [InterruptibleWorker.run_loop, h]
  | cons hd tl ih =>
    obtain ⟨item, outcome⟩ := hd
    simp only [List.cons_append, InterruptibleWorker.run_loop, List.append_eq, ih]

/-- Witness for C9: a cancelled event with a nonempty rest of the queue. -/
theorem C9_run_loop_exits_after_cancellation_witness :
    InterruptibleWorker.run_loop
        ([] ++ ((InterruptibleEvent.mk () true false), TaskOutcome.cancelled) ::
          [((InterruptibleEvent.mk () true false), TaskOutcome.normal)]) =
      InterruptibleWorker.run_loop
        ([] ++ [((InterruptibleEvent.mk () true false), TaskOutcome.cancelled)]) :=
  C9_run_loop_exits_after_cancellation []
    (InterruptibleEvent.mk () true false)
    [((InterruptibleEvent.mk () true false), TaskOutcome.normal)] rfl

/-- Claim C3: `cancel_current_task` returns true exactly when there is a
current task that is not done and the active event is still interruptible,
in which case it requests that task's cancellation and changes nothing else;
in every other worker state it returns false and changes nothing. -/
theorem C3_cancel_current_task_iff {P : Type} (w : InterruptibleWorker P) :
    (w.cancel_current_task.1 = true ↔
      ∃ t e, w.current_task = some t ∧ t.done = false ∧
        w.interruptible_event = some e ∧ e.is_interruptible = true) ∧
    (w.cancel_current_task.1 = false → w.cancel_current_task.2 = w) ∧
    (w.cancel_current_task.1 = true →
      w.cancel_current_task.2 =
        { w with current_task :=
            w.current_task.map (fun t => { t with cancel_requested := true }) }) := by
  obtain ⟨ct, ie⟩ := w
  cases ct with
  | none =>
    cases ie <;>
      simp [InterruptibleWorker.cancel_current_task]
  | some t =>
    cases ie with
    | none => simp [InterruptibleWorker.cancel_current_task]
    | some e =>
      by_cases hd : t.done <;> by_cases hi : e.is_interruptible <;>
        simp [InterruptibleWorker.cancel_current_task, hd, hi]

/-- Witness for C3: a worker with a live task and an interruptible event. -/
theorem C3_cancel_current_task_iff_witness :
    (InterruptibleWorker.cancel_current_task
        (InterruptibleWorker.mk (some (TaskState.mk false false))
          (some (InterruptibleEvent.mk () true false)))).1 = true :=
  (C3_cancel_current_task_iff
      (InterruptibleWorker.mk (some (TaskState.mk false false))
        (some (InterruptibleEvent.mk () true false)))).1.mpr
    ⟨TaskState.mk false false, InterruptibleEvent.mk () true false,
      rfl, rfl, rfl, rfl⟩

/-- Claim C6, counterexample: an event with a subscribed tag passed to
`publish_event` after `end` has run is still enqueued, because
`publish_event` never consults the `active` flag — refuting "it is never
enqueued". -/
theorem C6_counterexample :
    ((EventsManager.mk [] [EventType.PHONE_CALL_CONNECTED] true []).end'.publish_event
        (Event.mk "c1" EventType.PHONE_CALL_CONNECTED)).queue =
      [Event.mk "c1" EventType.PHONE_CALL_CONNECTED] := by
  rfl

/-- Claim C6, amended: `end` first synchronously handles every event already
in the queue, in order, leaving the queue empty and the manager inactive;
but an event passed to `publish_event` afterwards with a subscribed tag is
nevertheless enqueued (`publish_event` does not consult `active`), and the
completed `end` call does not handle it. -/
theorem C6_end_drains_and_later_publish_enqueues (m : EventsManager) (e : Event)
    (h : e.type ∈ m.subscriptions) :
    m.end'.handled = m.handled ++ m.queue ∧
    m.end'.queue = [] ∧
    m.end'.active = false ∧
    (m.end'.publish_event e).queue = [e] ∧
    (m.end'.publish_event e).handled = m.end'.handled := by
  refine ⟨rfl, rfl, rfl, ?_, ?_⟩ <;>
    simp [EventsManager.end', EventsManager.publish_event, h]

/-- Witness for C6 (amended): a manager with two queued events and a
subscribed event published after `end`. -/
theorem C6_end_drains_and_later_publish_enqueues_witness :
    ((EventsManager.mk [Event.mk "a" EventType.TRANSCRIPT]
        [EventType.TRANSCRIPT] true []).end'.publish_event
        (Event.mk "b" EventType.TRANSCRIPT)).queue =
      [Event.mk "b" EventType.TRANSCRIPT] :=
  (C6_end_drains_and_later_publish_enqueues
      (EventsManager.mk [Event.mk "a" EventType.TRANSCRIPT]
        [EventType.TRANSCRIPT] true [])
      (Event.mk "b" EventType.TRANSCRIPT) (by decide)).2.2.2.1

/-- Auxiliary: a nonempty string has positive length. -/
theorem string_length_pos (s : String) (h : s ≠ "") : 0 < s.length := by
  obtain ⟨data⟩ := s
  cases data with
  | nil => exact absurd rfl h
  | cons c cs => simp [String.length]

/-- Claim C7: the rate-based cutoff of "the quick brown fox" at one elapsed
second and 60 words per minute is exactly "the" (60 wpm is one word per
second, and floor(1) = 1 leading token is kept and detokenized). -/
theorem C7_voice_speed_cutoff_concrete :
    get_message_cutoff_from_voice_speed (BaseMessage.mk "the quick brown fox")
        1 60 = "the" := by
  unfold get_message_cutoff_from_voice_speed
  norm_num
  decide

/-- Claim C8: the length-proportional cutoff with a 10000-byte output at
10000 Hz (total estimated duration one second) and a 10-character message at
elapsed 0.5 seconds returns exactly the first five characters of the
message. -/
theorem C8_length_cutoff_half (message : BaseMessage)
    (h : message.text.length = 10) :
    get_message_cutoff_from_total_response_length (SynthesizerConfig.mk 10000)
        message (1/2) 10000 =
      Except.ok (String.mk (message.text.data.take 5)) := by
  have hne : message.text ≠ "" := by
    intro he
    rw [he] at h
    simp at h
  unfold get_message_cutoff_from_total_response_length
  norm_num [hne, h, pyInt, pyStrTake, pyTake]
  rfl

/-- Witness for C8 at the concrete message "helloworld". -/
theorem C8_length_cutoff_half_witness :
    get_message_cutoff_from_total_response_length (SynthesizerConfig.mk 10000)
        (BaseMessage.mk "helloworld") (1/2) 10000 =
      Except.ok (String.mk ("helloworld".data.take 5)) :=
  C8_length_cutoff_half (BaseMessage.mk "helloworld") rfl

/-- Claim C10: with a positive sampling rate, a nonempty message and
`size_of_output = 0`, the per-character duration is zero and
`get_message_cutoff_from_total_response_length` raises ZeroDivisionError
instead of returning a prefix. -/
theorem C10_zero_output_size_raises (synthesizer_config : SynthesizerConfig)
    (message : BaseMessage) (seconds : ℚ)
    (hrate : 0 < synthesizer_config.sampling_rate)
    (htext : message.text ≠ "") :
    get_message_cutoff_from_total_response_length synthesizer_config message
        seconds 0 =
      Except.error PyError.zeroDivision := by
  have h0 : synthesizer_config.sampling_rate ≠ 0 := hrate.ne'
  unfold get_message_cutoff_from_total_response_length
  simp [h0, htext]

/-- Witness for C10 at a concrete configuration. -/
theorem C10_zero_output_size_raises_witness :
    get_message_cutoff_from_total_response_length (SynthesizerConfig.mk 8000)
        (BaseMessage.mk "hi") 1 0 =
      Except.error PyError.zeroDivision :=
  C10_zero_output_size_raises (SynthesizerConfig.mk 8000) (BaseMessage.mk "hi")
    1 (by norm_num) (by decide)

/-- Claim C4, counterexample: the boundary rule "elapsedSeconds ≤ 0 yields an
empty prefix" fails: with the 10-character message "helloworld", a
10000-byte output at 10000 Hz and elapsed seconds -1/2 (which is ≤ 0), the
length-proportional cutoff returns the nonempty prefix "hello" — Python
truncates -5.0 to -5 and the slice [:-5] keeps the first five characters. -/
theorem C4_counterexample :
    ((-1/2 : ℚ) ≤ 0) ∧
    get_message_cutoff_from_total_response_length (SynthesizerConfig.mk 10000)
        (BaseMessage.mk "helloworld") (-1/2) 10000 =
      Except.ok "hello" ∧
    "hello" ≠ "" := by
  refine ⟨by norm_num, ?_, by decide⟩
  unfold get_message_cutoff_from_total_response_length
  norm_num [pyInt, pyStrTake, show "helloworld".length = 10 from rfl,
    show ¬("helloworld" = "") from by decide]
  rfl

/-- Claim C4, amended: for both cutoff strategies, with a positive sampling
rate and a positive output size: an empty message text yields an empty
prefix; elapsed seconds = 0 yields an empty prefix; for the
length-proportional strategy, elapsed seconds at least the total estimated
duration (output bytes / sampling rate) yields the full message text; and
for the rate-based strategy, once the floored word count covers every token
the result is the detokenization of the full token list. (The original
"elapsedSeconds ≤ 0" rule holds only at 0: for sufficiently negative elapsed
seconds Python's truncation toward zero and negative slicing return a
nonempty prefix.) -/
theorem C4_boundary_rules (synthesizer_config : SynthesizerConfig)
    (message : BaseMessage) (seconds : ℚ) (size_of_output words_per_minute : ℕ)
    (hrate : 0 < synthesizer_config.sampling_rate)
    (hsize : 0 < size_of_output) :
    (message.text = "" →
      get_message_cutoff_from_total_response_length synthesizer_config message
          seconds size_of_output = Except.ok "" ∧
      get_message_cutoff_from_voice_speed message seconds words_per_minute = "") ∧
    (get_message_cutoff_from_total_response_length synthesizer_config message
        0 size_of_output = Except.ok "" ∧
      get_message_cutoff_from_voice_speed message 0 words_per_minute = "") ∧
    ((size_of_output : ℚ) / (synthesizer_config.sampling_rate : ℚ) ≤ seconds →
      get_message_cutoff_from_total_response_length synthesizer_config message
          seconds size_of_output = Except.ok message.text) ∧
    (((word_tokenize message.text).length : ℚ) ≤
        (words_per_minute : ℚ) / 60 * seconds →
      get_message_cutoff_from_voice_speed message seconds words_per_minute =
        detokenize (word_tokenize message.text)) := by
  have h0 : synthesizer_config.sampling_rate ≠ 0 := hrate.ne'
  have h1 : (0 : ℚ) < (size_of_output : ℚ) := by exact_mod_cast hsize
  have h2 : (0 : ℚ) < (synthesizer_config.sampling_rate : ℚ) := by
    exact_mod_cast hrate
  refine ⟨?_, ⟨?_, ?_⟩, ?_, ?_⟩
  · intro he
    constructor
    · simp [get_message_cutoff_from_total_response_length, h0, he]
    · rw [get_message_cutoff_from_voice_speed, he]
      rw [show word_tokenize "" = [] from rfl, pyTake_nil]
      rfl
  · by_cases he : message.text = ""
    · simp [get_message_cutoff_from_total_response_length, h0, he]
    · have hlen : 0 < message.text.length := string_length_pos _ he
      have h3 : (0 : ℚ) < (message.text.length : ℚ) := by exact_mod_cast hlen
      rw [get_message_cutoff_from_total_response_length]
      rw [if_neg h0, if_neg he,
        if_neg (by positivity :
          ¬((size_of_output : ℚ) / (synthesizer_config.sampling_rate : ℚ) /
              (message.text.length : ℚ) = 0))]
      rw [zero_div, show pyInt 0 = 0 by simp [pyInt]]
      rw [show ∀ s : String, pyStrTake s 0 = "" from fun s => by
        simp [pyStrTake, pyTake]]
  · rw [get_message_cutoff_from_voice_speed]
    rw [mul_zero, Int.floor_zero]
    rw [show ∀ l : List String, pyTake l 0 = [] from fun l => by
      simp [pyTake]]
    rfl
  · intro hsec
    by_cases he : message.text = ""
    · simp [get_message_cutoff_from_total_response_length, h0, he]
    · have hlen : 0 < message.text.length := string_length_pos _ he
      have h3 : (0 : ℚ) < (message.text.length : ℚ) := by exact_mod_cast hlen
      have hp : (0 : ℚ) <
          (size_of_output : ℚ) / (synthesizer_config.sampling_rate : ℚ) :=
        div_pos h1 h2
      have hpc : (0 : ℚ) <
          (size_of_output : ℚ) / (synthesizer_config.sampling_rate : ℚ) /
            (message.text.length : ℚ) := div_pos hp h3
      have hq : (message.text.length : ℚ) ≤
          seconds /
            ((size_of_output : ℚ) / (synthesizer_config.sampling_rate : ℚ) /
              (message.text.length : ℚ)) := by
        rw [le_div_iff₀ hpc, mul_comm, div_mul_cancel₀ _ h3.ne']
        exact hsec
      have hq0 : (0 : ℚ) ≤
          seconds /
            ((size_of_output : ℚ) / (synthesizer_config.sampling_rate : ℚ) /
              (message.text.length : ℚ)) := le_trans h3.le hq
      have hfloor : (message.text.length : ℤ) ≤
          ⌊seconds /
            ((size_of_output : ℚ) / (synthesizer_config.sampling_rate : ℚ) /
              (message.text.length : ℚ))⌋ :=
        Int.le_floor.mpr (by exact_mod_cast hq)
      rw [get_message_cutoff_from_total_response_length]
      rw [if_neg h0, if_neg he, if_neg hpc.ne']
      rw [pyInt, if_pos hq0]
      rw [pyStrTake, pyTake_all _ _ (by exact_mod_cast hfloor)]
  · intro hw
    have hfloor : ((word_tokenize message.text).length : ℤ) ≤
        ⌊(words_per_minute : ℚ) / 60 * seconds⌋ :=
      Int.le_floor.mpr (by exact_mod_cast hw)
    rw [get_message_cutoff_from_voice_speed]
    rw [pyTake_all _ _ hfloor]

/-- Witness for C4 (amended): elapsed seconds beyond the total duration on a
concrete message returns the full text. -/
theorem C4_boundary_rules_witness :
    get_message_cutoff_from_total_response_length (SynthesizerConfig.mk 10000)
        (BaseMessage.mk "helloworld") 2 10000 =
      Except.ok (BaseMessage.mk "helloworld").text :=
  (C4_boundary_rules (SynthesizerConfig.mk 10000) (BaseMessage.mk "helloworld")
      2 10000 60 (by norm_num) (by norm_num)).2.2.1 (by norm_num)

/-- Claim C5: starting from `latest_media_timestamp = 0`, media chunks with
capture timestamps 0, 20 and 60 ms produce no silence before the first and
second chunks and exactly one run of 8*(60-40) = 160 bytes of 0xff mulaw
silence immediately before the third chunk. -/
theorem C5_jitter_gap_silence (c0 c1 c2 : List ℕ) :
    TwilioCall.handle_ws_messages (TwilioCallState.mk 0 [])
      [TwilioWsMessage.media c0 0, TwilioWsMessage.media c1 20,
       TwilioWsMessage.media c2 60] =
      TwilioCallState.mk 60 [c0, c1, List.replicate 160 0xff, c2] := rfl
